import Mathlib

/-!
Shallow embedding of `src/application.rs` (rustlab2024-wgpu): the wgpu
bootstrap sequence (`Application::new`), resize handling, the event hook and
the per-frame render protocol, together with proofs of the specification's
claims about them.

The wgpu backend (driver, adapter enumeration, surface capabilities) is an
external collaborator; it is modelled as an explicit `Backend` environment
passed to the bootstrap function, and per-frame acquisition results as a
`FrameCtx` environment passed to `render`. GPU-side effects (allocations,
command recording) are made observable as explicit event traces.
-/

set_option autoImplicit false
set_option linter.unusedVariables false

namespace WgpuApp

/-- wgpu `TextureFormat`, restricted to common surface-capable formats. -/
inductive TextureFormat
  | Bgra8Unorm
  | Bgra8UnormSrgb
  | Rgba8Unorm
  | Rgba8UnormSrgb
  deriving DecidableEq, Repr

/-- wgpu `PresentMode` (the variants relevant to surface configuration). -/
inductive PresentMode
  | Fifo
  | Immediate
  | Mailbox
  deriving DecidableEq, Repr

/-- wgpu `CompositeAlphaMode`. -/
inductive CompositeAlphaMode
  | Auto
  | Opaque
  | PreMultiplied
  | PostMultiplied
  | Inherit
  deriving DecidableEq, Repr

/-- wgpu `SurfaceConfiguration`: the negotiated surface state
(format, size in physical pixels, presentation mode, alpha mode). -/
structure SurfaceConfiguration where
  format : TextureFormat
  width : Nat
  height : Nat
  present_mode : PresentMode
  alpha_mode : CompositeAlphaMode
  deriving DecidableEq, Repr

/-- wgpu `PowerPreference`. -/
inductive PowerPreference
  | NoPreference
  | LowPower
  | HighPerformance
  deriving DecidableEq, Repr

/-- wgpu `RequestAdapterOptions`; surfaces are identified by numeric handles. -/
structure RequestAdapterOptions where
  power_preference : PowerPreference
  force_fallback_adapter : Bool
  compatible_surface : Option Nat
  deriving DecidableEq, Repr

/-- winit `PhysicalSize<u32>`. -/
structure PhysicalSize where
  width : Nat
  height : Nat
  deriving DecidableEq, Repr

/-- wgpu `BlendFactor` (the factors used by the blend presets in scope). -/
inductive BlendFactor
  | Zero
  | One
  | SrcAlpha
  | OneMinusSrcAlpha
  deriving DecidableEq, Repr

/-- wgpu `BlendOperation`. -/
inductive BlendOperation
  | Add
  | Subtract
  | ReverseSubtract
  | Min
  | Max
  deriving DecidableEq, Repr

/-- wgpu `BlendComponent`. -/
structure BlendComponent where
  src_factor : BlendFactor
  dst_factor : BlendFactor
  operation : BlendOperation
  deriving DecidableEq, Repr

/-- wgpu `BlendComponent::REPLACE`. -/
def BlendComponent.REPLACE : BlendComponent :=
  { src_factor := .One, dst_factor := .Zero, operation := .Add }

/-- wgpu `BlendComponent::OVER` (source-over). -/
def BlendComponent.OVER : BlendComponent :=
  { src_factor := .One, dst_factor := .OneMinusSrcAlpha, operation := .Add }

/-- wgpu `BlendState`. -/
structure BlendState where
  color : BlendComponent
  alpha : BlendComponent
  deriving DecidableEq, Repr

/-- wgpu `BlendState::REPLACE`. -/
def BlendState.REPLACE : BlendState :=
  { color := BlendComponent.REPLACE, alpha := BlendComponent.REPLACE }

/-- wgpu `BlendState::ALPHA_BLENDING` (standard source-over alpha blending). -/
def BlendState.ALPHA_BLENDING : BlendState :=
  { color := { src_factor := .SrcAlpha, dst_factor := .OneMinusSrcAlpha, operation := .Add }
    alpha := BlendComponent.OVER }

/-- wgpu `ColorWrites`, as a bitmask: RED = 1, GREEN = 2, BLUE = 4, ALPHA = 8. -/
def ColorWrites.ALL : Nat := 15

/-- The Rust default `ColorWrites::default()` is `ColorWrites::ALL`. -/
def ColorWrites.defaultMask : Nat := ColorWrites.ALL

/-- wgpu `ColorTargetState`. -/
structure ColorTargetState where
  format : TextureFormat
  blend : Option BlendState
  write_mask : Nat
  deriving DecidableEq, Repr

/-- wgpu `VertexState`: the entry point (`none` = auto-detected) and the vertex
buffer layouts (opaque here; the source binds none). -/
structure VertexState where
  entry_point : Option String
  buffers : List Unit
  deriving DecidableEq, Repr

/-- wgpu `FragmentState`. -/
structure FragmentState where
  entry_point : Option String
  targets : List (Option ColorTargetState)
  deriving DecidableEq, Repr

/-- wgpu `PrimitiveTopology`. -/
inductive PrimitiveTopology
  | PointList
  | LineList
  | LineStrip
  | TriangleList
  | TriangleStrip
  deriving DecidableEq, Repr

/-- wgpu `FrontFace`. -/
inductive FrontFace
  | Ccw
  | Cw
  deriving DecidableEq, Repr

/-- wgpu `Face`. -/
inductive Face
  | Front
  | Back
  deriving DecidableEq, Repr

/-- wgpu `PolygonMode`. -/
inductive PolygonMode
  | Fill
  | Line
  | Point
  deriving DecidableEq, Repr

/-- wgpu `PrimitiveState`. -/
structure PrimitiveState where
  topology : PrimitiveTopology
  strip_index_format : Option Nat
  front_face : FrontFace
  cull_mode : Option Face
  unclipped_depth : Bool
  polygon_mode : PolygonMode
  conservative : Bool
  deriving DecidableEq, Repr

/-- The Rust default `PrimitiveState::default()`: triangle list, CCW front
faces, no culling. -/
def PrimitiveState.defaultState : PrimitiveState :=
  { topology := .TriangleList
    strip_index_format := none
    front_face := .Ccw
    cull_mode := none
    unclipped_depth := false
    polygon_mode := .Fill
    conservative := false }

/-- wgpu `MultisampleState`. -/
structure MultisampleState where
  count : Nat
  mask : Nat
  alpha_to_coverage_enabled : Bool
  deriving DecidableEq, Repr

/-- The Rust default `MultisampleState::default()`: one sample (no
multisampling), full mask. -/
def MultisampleState.defaultState : MultisampleState :=
  { count := 1, mask := 2 ^ 64 - 1, alpha_to_coverage_enabled := false }

/-- wgpu `RenderPipelineDescriptor`, as filled in by `Application::new`
(lines 135–159 of `src/application.rs`); the depth/stencil state is opaque
(`Unit`) because the source never constructs one. -/
structure RenderPipelineDescriptor where
  label : Option String
  vertex : VertexState
  primitive : PrimitiveState
  depth_stencil : Option Unit
  multisample : MultisampleState
  fragment : Option FragmentState
  multiview : Option Nat
  deriving DecidableEq, Repr

/-- The external wgpu backend environment: surface creation, adapter
enumeration and device requests, with numeric handles for surfaces, adapters,
devices and queues. The field `adapter_requested_compatible` records the wgpu
contract that `request_adapter` with a `compatible_surface` constraint only
returns adapters supporting that surface. -/
structure Backend where
  create_surface : Option Nat
  request_adapter : RequestAdapterOptions → Option Nat
  compatible : Nat → Nat → Bool
  request_device : Nat → Option (Nat × Nat)
  default_format : Nat → Nat → TextureFormat
  default_present_mode : Nat → Nat → PresentMode
  default_alpha_mode : Nat → Nat → CompositeAlphaMode
  adapter_requested_compatible :
    ∀ o a s, request_adapter o = some a → o.compatible_surface = some s →
      compatible a s = true

/-- wgpu `Surface::get_default_config(adapter, width, height)`: returns `none`
exactly when the adapter does not support the surface (source comment, lines
90–91: "This only returns None if the surface and adapter are incompatible"),
otherwise the backend's default configuration carrying the given size. -/
def getDefaultConfig (b : Backend) (surface adapter width height : Nat) :
    Option SurfaceConfiguration :=
  if b.compatible adapter surface then
    some { format := b.default_format adapter surface
           width := width
           height := height
           present_mode := b.default_present_mode adapter surface
           alpha_mode := b.default_alpha_mode adapter surface }
  else
    none

/-- Failure modes of `Application::new`: the `?` on surface creation, the
`ok_or_eyre("failed to get adapter")`, the `?` on the device request, and the
`.expect("surface is compatible")` panic. -/
inductive NewError
  | createSurfaceFailed
  | noAdapterFound
  | deviceRequestFailed
  | panicked (msg : String)
  deriving DecidableEq, Repr

/-- Observable GPU-side effects of the bootstrap sequence, in program order. -/
inductive Event
  | createInstance
  | createSurface (surface : Nat)
  | requestAdapter (options : RequestAdapterOptions) (result : Option Nat)
  | requestDevice (adapter : Nat) (result : Option (Nat × Nat))
  | configureSurface (config : SurfaceConfiguration)
  | createShaderModule
  | createPipelineLayout
  | createRenderPipeline (descriptor : RenderPipelineDescriptor)
  deriving DecidableEq, Repr

/-- The `Application` struct of `src/application.rs` (lines 26–32): the
surface configuration, the surface, the device, the queue and the render
pipeline (recorded here by its immutable descriptor). -/
structure Application where
  surface_config : SurfaceConfiguration
  surface : Nat
  device : Nat
  queue : Nat
  render_pipeline : RenderPipelineDescriptor
  deriving DecidableEq, Repr

/-- The render pipeline descriptor built in `Application::new`
(lines 135–159): auto-detected entry points, no vertex buffers, one color
target at the surface format with `ALPHA_BLENDING` and the default write
mask, default primitive and multisample state, no depth/stencil, no
multiview. -/
def builtPipeline (format : TextureFormat) : RenderPipelineDescriptor :=
  { label := some "Render Pipeline"
    vertex :=
      { entry_point := none
        buffers := [] }
    primitive := PrimitiveState.defaultState
    depth_stencil := none
    multisample := MultisampleState.defaultState
    fragment := some
      { entry_point := none
        targets := [some
          { format := format
            blend := some BlendState.ALPHA_BLENDING
            write_mask := ColorWrites.defaultMask }] }
    multiview := none }

/-- The constructor `Application::new` (lines 35–169): instance → surface → adapter →
device/queue → default surface configuration at the size reduced by
`.min(1)` per dimension (the literal source expression on line 93) →
configure → shader module → pipeline layout → render pipeline. Returns the
trace of GPU-side effects together with the result. -/
def Application.new (b : Backend) (size : PhysicalSize) :
    List Event × Except NewError Application :=
  match b.create_surface with
  | none => ([Event.createInstance], .error .createSurfaceFailed)
  | some surface =>
    let options : RequestAdapterOptions :=
      { power_preference := .HighPerformance
        force_fallback_adapter := false
        compatible_surface := some surface }
    match b.request_adapter options with
    | none =>
      ([Event.createInstance, Event.createSurface surface,
        Event.requestAdapter options none],
       .error .noAdapterFound)
    | some adapter =>
      match b.request_device adapter with
      | none =>
        ([Event.createInstance, Event.createSurface surface,
          Event.requestAdapter options (some adapter),
          Event.requestDevice adapter none],
         .error .deviceRequestFailed)
      | some (device, queue) =>
        match getDefaultConfig b surface adapter
            (min size.width 1) (min size.height 1) with
        | none =>
          ([Event.createInstance, Event.createSurface surface,
            Event.requestAdapter options (some adapter),
            Event.requestDevice adapter (some (device, queue))],
           .error (.panicked "surface is compatible"))
        | some surface_config =>
          let render_pipeline := builtPipeline surface_config.format
          ([Event.createInstance, Event.createSurface surface,
            Event.requestAdapter options (some adapter),
            Event.requestDevice adapter (some (device, queue)),
            Event.configureSurface surface_config,
            Event.createShaderModule,
            Event.createPipelineLayout,
            Event.createRenderPipeline render_pipeline],
           .ok { surface_config := surface_config
                 surface := surface
                 device := device
                 queue := queue
                 render_pipeline := render_pipeline })

/-- Modelled from the spec: the body of `Application::resize` is left as
`todo!()` in `src/application.rs` (lines 171–182). Per spec §4.3 and the
source comments (lines 174–181), it updates the surface configuration's
stored dimensions, clamping each to a minimum of 1, then reconfigures the
surface with the updated configuration. Returns the updated application and
the trace of GPU-side effects. -/
def Application.resize (app : Application) (width height : Nat) :
    Application × List Event :=
  let config :=
    { app.surface_config with width := max width 1, height := max height 1 }
  ({ app with surface_config := config }, [Event.configureSurface config])

/-- `Application::handle_event` (lines 184–190): ignores the window and the
event, mutates nothing, and returns `false` (event not consumed). The
post-call application is returned to make the absence of mutation explicit. -/
def Application.handle_event (app : Application) (window : Nat)
    (winit_event : Nat) : Bool × Application :=
  (false, app)

/-- wgpu `SurfaceError`: the error type of `Surface::get_current_texture`. -/
inductive SurfaceError
  | Timeout
  | Outdated
  | Lost
  | OutOfMemory
  deriving DecidableEq, Repr

/-- Per-frame environment: the backend's answer to `get_current_texture`
for this `render` call (a frame handle on success). -/
structure FrameCtx where
  acquire : Except SurfaceError Nat
  deriving Repr

/-- wgpu `Color` with the integral components used here
(`Color::BLACK` is r = 0, g = 0, b = 0, a = 1). -/
structure Color where
  r : Nat
  g : Nat
  b : Nat
  a : Nat
  deriving DecidableEq, Repr

/-- wgpu `Color::BLACK`. -/
def Color.BLACK : Color := { r := 0, g := 0, b := 0, a := 1 }

/-- wgpu `LoadOp` for a color attachment. -/
inductive LoadOp
  | Clear (color : Color)
  | Load
  deriving DecidableEq, Repr

/-- wgpu `StoreOp`. -/
inductive StoreOp
  | Store
  | Discard
  deriving DecidableEq, Repr

/-- wgpu `RenderPassColorAttachment`: the texture view rendered to
(identified by the acquired frame and the explicit view format) and its
load/store operations. -/
structure RenderPassColorAttachment where
  view_frame : Nat
  view_format : Option TextureFormat
  load : LoadOp
  store : StoreOp
  deriving DecidableEq, Repr

/-- Observable effects of one `render` cycle, in program order. -/
inductive RenderEvent
  | acquireFrame (frame : Nat)
  | createView (frame : Nat) (format : Option TextureFormat)
  | createCommandEncoder
  | beginRenderPass (color_attachments : List (Option RenderPassColorAttachment))
  | setPipeline (descriptor : RenderPipelineDescriptor)
  | draw (vertex_start vertex_end instance_start instance_end : Nat)
  | endRenderPass
  | finishEncoder
  | submit
  | present (frame : Nat)
  deriving DecidableEq, Repr

/-- Whether a render event is a draw call. -/
def RenderEvent.isDraw : RenderEvent → Bool
  | .draw _ _ _ _ => true
  | _ => false

/-- `Application::render` (lines 192–261). Steps 1–3 (acquire the current
surface texture, create a texture view with the surface configuration's
format passed explicitly, create a command encoder) are implemented in the
source; the remaining steps are `todo!()` placeholders and are modelled from
the spec §4.4 and the source comments (lines 223–258): begin one render pass
with a single color attachment (clear to black on load, store on store),
set the stored pipeline, draw vertices 0..6 for instances 0..1, end the
pass, finish the encoder and submit, then present the frame. A failed
acquisition propagates the `SurfaceError` via `?` with no further step.
Returns the event trace, the result, and the post-call application state. -/
def Application.render (app : Application) (ctx : FrameCtx) :
    List RenderEvent × Except SurfaceError Unit × Application :=
  match ctx.acquire with
  | .error e => ([], .error e, app)
  | .ok frame =>
    let view_format := some app.surface_config.format
    let attachment : RenderPassColorAttachment :=
      { view_frame := frame
        view_format := view_format
        load := .Clear Color.BLACK
        store := .Store }
    ([RenderEvent.acquireFrame frame,
      RenderEvent.createView frame view_format,
      RenderEvent.createCommandEncoder,
      RenderEvent.beginRenderPass [some attachment],
      RenderEvent.setPipeline app.render_pipeline,
      RenderEvent.draw 0 6 0 1,
      RenderEvent.endRenderPass,
      RenderEvent.finishEncoder,
      RenderEvent.submit,
      RenderEvent.present frame],
     .ok (), app)

/-- The states of an `Application` reachable over backend `b`: freshly
constructed, or obtained from a reachable state by a `resize` or a `render`
call. -/
inductive Reachable (b : Backend) : Application → Prop
  | boot (size : PhysicalSize) (trace : List Event) (app : Application)
      (h : Application.new b size = (trace, .ok app)) : Reachable b app
  | resized (app : Application) (width height : Nat)
      (h : Reachable b app) : Reachable b (Application.resize app width height).1
  | rendered (app : Application) (ctx : FrameCtx)
      (h : Reachable b app) : Reachable b (Application.render app ctx).2.2

/-- The pixel format declared for the pipeline's single color target, when
the pipeline has exactly one fragment color target. -/
def Application.pipelineColorTargetFormat (app : Application) :
    Option TextureFormat :=
  match app.render_pipeline.fragment with
  | some f =>
    match f.targets with
    | [some t] => some t.format
    | _ => none
  | none => none

/-- Whether a bootstrap result is the `.expect("surface is compatible")`
panic. -/
def resultIsCompatPanic : Except NewError Application → Bool
  | .error (.panicked _) => true
  | _ => false

/-- A concrete backend on which every bootstrap step succeeds: one surface
(handle 0), one adapter (handle 7) compatible with everything, device and
queue handles 1 and 2, `Bgra8UnormSrgb` as the default surface format. -/
def demoBackend : Backend :=
  { create_surface := some 0
    request_adapter := fun _ => some 7
    compatible := fun _ _ => true
    request_device := fun _ => some (1, 2)
    default_format := fun _ _ => .Bgra8UnormSrgb
    default_present_mode := fun _ _ => .Fifo
    default_alpha_mode := fun _ _ => .Opaque
    adapter_requested_compatible := fun _ _ _ _ _ => rfl }

/-- A concrete backend exposing no adapter at all. -/
def noAdapterBackend : Backend :=
  { create_surface := some 0
    request_adapter := fun _ => none
    compatible := fun _ _ => false
    request_device := fun _ => none
    default_format := fun _ _ => .Bgra8UnormSrgb
    default_present_mode := fun _ _ => .Fifo
    default_alpha_mode := fun _ _ => .Opaque
    adapter_requested_compatible := fun _ _ _ h _ => nomatch h }

/-- The surface configuration `demoBackend` yields for a bootstrap at size
800×600: both dimensions end up as `min _ 1 = 1`. -/
def demoConfig : SurfaceConfiguration :=
  { format := .Bgra8UnormSrgb
    width := 1
    height := 1
    present_mode := .Fifo
    alpha_mode := .Opaque }

/-- The application produced by `Application.new demoBackend ⟨800, 600⟩`. -/
def demoApp : Application :=
  { surface_config := demoConfig
    surface := 0
    device := 1
    queue := 2
    render_pipeline := builtPipeline .Bgra8UnormSrgb }

/-- The bootstrap trace of `Application.new demoBackend ⟨800, 600⟩`. -/
def demoBootTrace : List Event :=
  (Application.new demoBackend { width := 800, height := 600 }).1

/-- A successful bootstrap on `demoBackend` at 800×600 yields `demoApp`. -/
theorem demoBoot_eq :
    Application.new demoBackend { width := 800, height := 600 } =
      (demoBootTrace, .ok demoApp) := rfl

/-- `demoApp` is a reachable application state over `demoBackend`. -/
theorem demoApp_reachable : Reachable demoBackend demoApp :=
  Reachable.boot { width := 800, height := 600 } demoBootTrace demoApp demoBoot_eq

/-- A successful bootstrap stores the pipeline built at the surface
configuration's format (`Application::new`, lines 135–168). -/
theorem new_ok_pipeline (b : Backend) (size : PhysicalSize)
    (trace : List Event) (app : Application)
    (h : Application.new b size = (trace, .ok app)) :
    app.render_pipeline = builtPipeline app.surface_config.format := by
  simp only [Application.new] at h
  split at h
  · simp at h
  · split at h
    · simp at h
    · split at h
      · simp at h
      · split at h
        · simp at h
        · have h2 := congrArg Prod.snd h
          simp only [Except.ok.injEq] at h2
          subst h2
          rfl

/-- `render` never mutates the application state (the source takes `&mut
self` but assigns no field). -/
theorem render_post_state (app : Application) (ctx : FrameCtx) :
    (Application.render app ctx).2.2 = app := by
  unfold Application.render
  rcases ctx with ⟨acq⟩
  cases acq <;> rfl

/-- In a successful cycle, the texture view is created with the surface
configuration's format passed explicitly (`render`, lines 206–212). -/
theorem render_view_format (app : Application) (ctx : FrameCtx) (frame : Nat)
    (h : ctx.acquire = .ok frame) :
    RenderEvent.createView frame (some app.surface_config.format) ∈
      (Application.render app ctx).1 := by
  unfold Application.render
  rw [h]
  simp

/-- C1. The claim says a requested size with a zero dimension is clamped to a
minimum of 1 before the surface is configured. The source (line 93) instead
passes `size.width.min(1)` and `size.height.min(1)` to `get_default_config`,
clamping each dimension to a MAXIMUM of 1: at requested size (0, 600) the
applied surface configuration has width 0 (the claim requires 1) and height
1 (the claim requires 600), contradicting the source's own comment on lines
88–89 ("Make sure the size has a width and height of at least 1"). -/
theorem new_configures_zero_width_at_zero_requested_width :
    (Application.new demoBackend { width := 0, height := 600 }).2.map
      (fun app => (app.surface_config.width, app.surface_config.height)) =
      .ok (0, 1) ∧
    Event.configureSurface { demoConfig with width := 0, height := 1 } ∈
      (Application.new demoBackend { width := 0, height := 600 }).1 := by
  constructor
  · rfl
  · decide

/-- C2. At every reachable application state, the pipeline's single color
target format equals the current surface configuration's format, and every
successful render cycle creates its texture view with exactly that format
passed explicitly. -/
theorem reachable_pipeline_format_matches_surface (b : Backend)
    (app : Application) (h : Reachable b app) :
    app.pipelineColorTargetFormat = some app.surface_config.format ∧
    ∀ ctx frame, ctx.acquire = .ok frame →
      RenderEvent.createView frame (some app.surface_config.format) ∈
        (Application.render app ctx).1 := by
  refine ⟨?_, fun ctx frame hc => render_view_format app ctx frame hc⟩
  induction h with
  | boot size trace app hnew =>
    have hp := new_ok_pipeline b size trace app hnew
    simp [Application.pipelineColorTargetFormat, hp, builtPipeline]
  | resized app width height h ih => exact ih
  | rendered app ctx h ih => rw [render_post_state]; exact ih

/-- C2 witness: the invariant instantiated at the concrete reachable state
`demoApp` over `demoBackend`. -/
theorem reachable_pipeline_format_matches_surface_witness :
    demoApp.pipelineColorTargetFormat = some demoApp.surface_config.format :=
  (reachable_pipeline_format_matches_surface demoBackend demoApp
    demoApp_reachable).1

/-- C3. Bootstrap requests the adapter with a high-performance power
preference, no fallback adapter, and the created surface as compatible
surface; when the backend returns no adapter, `new` stops with
`noAdapterFound` having allocated only the instance and the surface. -/
theorem new_adapter_request_and_no_adapter_failure (b : Backend)
    (size : PhysicalSize) (surface : Nat)
    (hs : b.create_surface = some surface)
    (hn : b.request_adapter
      { power_preference := .HighPerformance
        force_fallback_adapter := false
        compatible_surface := some surface } = none) :
    Application.new b size =
      ([Event.createInstance, Event.createSurface surface,
        Event.requestAdapter
          { power_preference := .HighPerformance
            force_fallback_adapter := false
            compatible_surface := some surface } none],
       .error .noAdapterFound) := by
  simp only [Application.new, hs, hn]

/-- C3 witness: the adapter-failure path at the concrete backend
`noAdapterBackend` and size 800×600. -/
theorem new_adapter_request_and_no_adapter_failure_witness :
    Application.new noAdapterBackend { width := 800, height := 600 } =
      ([Event.createInstance, Event.createSurface 0,
        Event.requestAdapter
          { power_preference := .HighPerformance
            force_fallback_adapter := false
            compatible_surface := some 0 } none],
       .error .noAdapterFound) :=
  new_adapter_request_and_no_adapter_failure noAdapterBackend
    { width := 800, height := 600 } 0 rfl rfl

/-- C4. The `.expect("surface is compatible")` branch of `Application::new`
is unreachable: because the adapter is requested with the created surface as
`compatible_surface`, `get_default_config` never returns `None`, so for
every backend and size the bootstrap result is never that panic. -/
theorem new_compat_panic_unreachable (b : Backend) (size : PhysicalSize) :
    resultIsCompatPanic (Application.new b size).2 = false := by
  simp only [Application.new]
  split
  · rfl
  next surface hs =>
    split
    · rfl
    next adapter ha =>
      split
      · rfl
      next device queue hd =>
        split
        next hcfg =>
          have hcomp := b.adapter_requested_compatible _ adapter surface ha rfl
          simp [getDefaultConfig, hcomp] at hcfg
        next cfg hcfg => rfl

/-- C5. `resize` stores dimensions clamped to a minimum of 1 in the surface
configuration, changes nothing else, and reconfigures the surface with that
configuration; a second identical `resize` returns the identical application
and its only effect is the reconfigure with the identical configuration. -/
theorem resize_clamps_reconfigures_idempotent (app : Application)
    (width height : Nat) :
    (Application.resize app width height).1.surface_config.width =
      max width 1 ∧
    (Application.resize app width height).1.surface_config.height =
      max height 1 ∧
    (Application.resize app width height).1.surface_config.format =
      app.surface_config.format ∧
    (Application.resize app width height).1.surface_config.present_mode =
      app.surface_config.present_mode ∧
    (Application.resize app width height).1.surface = app.surface ∧
    (Application.resize app width height).1.device = app.device ∧
    (Application.resize app width height).1.queue = app.queue ∧
    (Application.resize app width height).1.render_pipeline =
      app.render_pipeline ∧
    (Application.resize app width height).2 =
      [Event.configureSurface
        (Application.resize app width height).1.surface_config] ∧
    Application.resize (Application.resize app width height).1 width height =
      ((Application.resize app width height).1,
       [Event.configureSurface
         (Application.resize app width height).1.surface_config]) :=
  ⟨rfl, rfl, rfl, rfl, rfl, rfl, rfl, rfl, rfl, rfl⟩

/-- C6. A `render` call whose acquisition succeeds returns `Ok` and performs,
in order with no step skipped: acquire the frame, create the texture view,
create the command encoder, begin exactly one render pass, bind the pipeline
and draw, end the pass, finish and submit, and present the acquired frame;
the application state is unchanged. -/
theorem render_ok_full_cycle (app : Application) (ctx : FrameCtx)
    (frame : Nat) (h : ctx.acquire = .ok frame) :
    Application.render app ctx =
      ([RenderEvent.acquireFrame frame,
        RenderEvent.createView frame (some app.surface_config.format),
        RenderEvent.createCommandEncoder,
        RenderEvent.beginRenderPass [some
          { view_frame := frame
            view_format := some app.surface_config.format
            load := .Clear Color.BLACK
            store := .Store }],
        RenderEvent.setPipeline app.render_pipeline,
        RenderEvent.draw 0 6 0 1,
        RenderEvent.endRenderPass,
        RenderEvent.finishEncoder,
        RenderEvent.submit,
        RenderEvent.present frame],
       .ok (), app) := by
  unfold Application.render
  rw [h]

/-- C6 witness: the full successful cycle at the concrete state `demoApp`
with frame handle 3. -/
theorem render_ok_full_cycle_witness :
    Application.render demoApp { acquire := .ok 3 } =
      ([RenderEvent.acquireFrame 3,
        RenderEvent.createView 3 (some TextureFormat.Bgra8UnormSrgb),
        RenderEvent.createCommandEncoder,
        RenderEvent.beginRenderPass [some
          { view_frame := 3
            view_format := some TextureFormat.Bgra8UnormSrgb
            load := .Clear Color.BLACK
            store := .Store }],
        RenderEvent.setPipeline (builtPipeline .Bgra8UnormSrgb),
        RenderEvent.draw 0 6 0 1,
        RenderEvent.endRenderPass,
        RenderEvent.finishEncoder,
        RenderEvent.submit,
        RenderEvent.present 3],
       .ok (), demoApp) :=
  render_ok_full_cycle demoApp { acquire := .ok 3 } 3 rfl

/-- C7. In a successful cycle the recorded pass binds the stored render
pipeline (trace position 4) immediately before its only draw call (trace
position 5), and that draw call covers vertices 0..6 and instances 0..1. -/
theorem render_binds_pipeline_draws_once (app : Application) (ctx : FrameCtx)
    (frame : Nat) (h : ctx.acquire = .ok frame) :
    (Application.render app ctx).1.filter RenderEvent.isDraw =
      [RenderEvent.draw 0 6 0 1] ∧
    (Application.render app ctx).1.get? 4 =
      some (RenderEvent.setPipeline app.render_pipeline) ∧
    (Application.render app ctx).1.get? 5 =
      some (RenderEvent.draw 0 6 0 1) := by
  unfold Application.render
  rw [h]
  exact ⟨rfl, rfl, rfl⟩

/-- C7 witness: the single 6-vertex/1-instance draw at the concrete state
`demoApp` with frame handle 3. -/
theorem render_binds_pipeline_draws_once_witness :
    (Application.render demoApp { acquire := .ok 3 }).1.filter
      RenderEvent.isDraw = [RenderEvent.draw 0 6 0 1] :=
  (render_binds_pipeline_draws_once demoApp { acquire := .ok 3 } 3 rfl).1

/-- C8. The pipeline built at construction has an auto-detected vertex entry
point with no vertex buffers, an auto-detected fragment entry point with one
color target at the surface format using source-over alpha blending and the
full color write mask, default (triangle-list) primitive state, no
depth/stencil, default single-sample multisample state, and no multiview. -/
theorem new_pipeline_structure (b : Backend) (size : PhysicalSize)
    (trace : List Event) (app : Application)
    (h : Application.new b size = (trace, .ok app)) :
    app.render_pipeline.vertex = { entry_point := none, buffers := [] } ∧
    app.render_pipeline.fragment = some
      { entry_point := none
        targets := [some
          { format := app.surface_config.format
            blend := some BlendState.ALPHA_BLENDING
            write_mask := ColorWrites.ALL }] } ∧
    app.render_pipeline.primitive = PrimitiveState.defaultState ∧
    app.render_pipeline.primitive.topology = .TriangleList ∧
    app.render_pipeline.primitive.cull_mode = none ∧
    app.render_pipeline.primitive.front_face = .Ccw ∧
    app.render_pipeline.depth_stencil = none ∧
    app.render_pipeline.multisample = MultisampleState.defaultState ∧
    app.render_pipeline.multisample.count = 1 ∧
    app.render_pipeline.multiview = none := by
  have hp := new_ok_pipeline b size trace app h
  rw [hp]
  exact ⟨rfl, rfl, rfl, rfl, rfl, rfl, rfl, rfl, rfl, rfl⟩

/-- C8 witness: the pipeline structure at the concrete bootstrap on
`demoBackend` at 800×600. -/
theorem new_pipeline_structure_witness :
    demoApp.render_pipeline.primitive.topology =
      PrimitiveTopology.TriangleList ∧
    demoApp.render_pipeline.vertex = { entry_point := none, buffers := [] } :=
  ⟨(new_pipeline_structure demoBackend { width := 800, height := 600 }
      demoBootTrace demoApp demoBoot_eq).2.2.2.1,
   (new_pipeline_structure demoBackend { width := 800, height := 600 }
      demoBootTrace demoApp demoBoot_eq).1⟩

/-- C9. When acquisition fails, `render` returns exactly the backend's
`SurfaceError`, records no rendering event, and leaves the application state
unchanged. -/
theorem render_propagates_acquire_error (app : Application) (ctx : FrameCtx)
    (e : SurfaceError) (h : ctx.acquire = .error e) :
    Application.render app ctx = ([], .error e, app) := by
  unfold Application.render
  rw [h]

/-- C9 witness: an `Outdated` acquisition failure at the concrete state
`demoApp` is propagated unchanged. -/
theorem render_propagates_acquire_error_witness :
    Application.render demoApp { acquire := .error .Outdated } =
      ([], .error SurfaceError.Outdated, demoApp) :=
  render_propagates_acquire_error demoApp { acquire := .error .Outdated }
    .Outdated rfl

/-- C10. `handle_event` consumes no event and changes no field of the
application, for every window handle and event. -/
theorem handle_event_unconsumed_pure (app : Application)
    (window winit_event : Nat) :
    Application.handle_event app window winit_event = (false, app) ∧
    (Application.handle_event app window winit_event).2.surface_config =
      app.surface_config ∧
    (Application.handle_event app window winit_event).2.surface =
      app.surface ∧
    (Application.handle_event app window winit_event).2.device = app.device ∧
    (Application.handle_event app window winit_event).2.queue = app.queue ∧
    (Application.handle_event app window winit_event).2.render_pipeline =
      app.render_pipeline :=
  ⟨rfl, rfl, rfl, rfl, rfl, rfl⟩

end WgpuApp
